import Mathlib

/-!
Formal model of the MOBIPAY matatu fare-payment backend.

The JavaScript sources embedded here:
  * `businessRules.calculateTransactionCharge` and `sanitize` / `validate`
    (backend/mpesa-service.js, second module: validation.js),
  * `MoneySplitter.calculateSplit` (utils/money-split.js),
  * `MpesaService.stkPush`, `stkPushQuery`, `processCallback`,
    `validateCallback`, `formatPhoneNumber` (backend/mpesa-service.js),
  * the `/api/payment/status/:transactionId` and `/api/mpesa/callback`
    route handlers (server2.js).

Numbers: the JavaScript sources compute on IEEE doubles; the model uses
exact rational arithmetic.  On the validated amount range (50..100000 and
the derived charges) the double computations agree with the exact values,
so the rational model is faithful there.
-/

namespace Mobipay

/-- JavaScript `Math.round`: the nearest integer, with ties rounded toward
positive infinity, i.e. `⌊q + 1/2⌋` for every rational `q`. -/
def jsRound (q : ℚ) : ℤ := ⌊q + 1/2⌋

/-- `businessRules.calculateTransactionCharge` (validation.js): pick the
percentage from the tier table with the first matching branch, then
`Math.round(amount * (percentage / 100))`. -/
def calculateTransactionCharge (amount : ℕ) : ℤ :=
  jsRound ((amount : ℚ) *
    ((if amount ≤ 500 then (1.5 : ℚ)
      else if amount ≤ 1000 then (1.2 : ℚ)
      else if amount ≤ 2000 then (1 : ℚ)
      else (0.8 : ℚ)) / 100))

/-- The service-charge contract as the specification words it: the charge is
round-half-up of fareAmount times 1.5% (fare at most 500), 1.2% (at most
1000), 1.0% (at most 2000) or 0.8% (above 2000), first matching tier. -/
def computeServiceCharge (fareAmount : ℕ) : ℤ :=
  if fareAmount ≤ 500 then jsRound ((fareAmount : ℚ) * (15/1000))
  else if fareAmount ≤ 1000 then jsRound ((fareAmount : ℚ) * (12/1000))
  else if fareAmount ≤ 2000 then jsRound ((fareAmount : ℚ) * (10/1000))
  else jsRound ((fareAmount : ℚ) * (8/1000))

/-- The two failure modes of `MoneySplitter.calculateSplit`: the thrown
errors for a charge below 1 and for a percentage outside [0, 100]. -/
inductive SplitError
  | invalidCharge
  | invalidPercentage
  deriving DecidableEq

/-- The object `MoneySplitter.calculateSplit` returns.  The display-only
fields (the two percentage strings and the ratio string) are omitted; the
numeric fields are kept exactly. -/
structure SplitResult where
  transactionCharge : ℤ
  developerShare : ℤ
  ownerShare : ℤ
  isValid : Bool
  deriving DecidableEq

/-- The `developerShare` constant of `calculateSplit`:
`Math.round(transactionCharge * (developerPercentage / 100))`. -/
def developerShareRaw (transactionCharge : ℤ) (developerPercentage : ℚ) : ℤ :=
  jsRound ((transactionCharge : ℚ) * (developerPercentage / 100))

/-- The `ownerShare` constant of `calculateSplit`: the remainder. -/
def ownerShareRaw (transactionCharge : ℤ) (developerPercentage : ℚ) : ℤ :=
  transactionCharge - developerShareRaw transactionCharge developerPercentage

/-- The `finalDeveloperShare` constant of `calculateSplit`: decremented by one
when the owner share fell below 1 while the charge exceeds 1. -/
def finalDeveloperShare (transactionCharge : ℤ) (developerPercentage : ℚ) : ℤ :=
  if ownerShareRaw transactionCharge developerPercentage < 1 ∧ 1 < transactionCharge then
    developerShareRaw transactionCharge developerPercentage - 1
  else developerShareRaw transactionCharge developerPercentage

/-- The `finalOwnerShare` constant of `calculateSplit`. -/
def finalOwnerShare (transactionCharge : ℤ) (developerPercentage : ℚ) : ℤ :=
  transactionCharge - finalDeveloperShare transactionCharge developerPercentage

/-- `MoneySplitter.calculateSplit` (utils/money-split.js, lines 111-140):
guard the two preconditions (charge first), then return the corrected
shares.  The thrown errors become `Except.error`. -/
def calculateSplit (transactionCharge : ℤ) (developerPercentage : ℚ) :
    Except SplitError SplitResult :=
  if transactionCharge < 1 then .error .invalidCharge
  else if developerPercentage < 0 ∨ 100 < developerPercentage then .error .invalidPercentage
  else .ok
    { transactionCharge := transactionCharge
      developerShare := finalDeveloperShare transactionCharge developerPercentage
      ownerShare := finalOwnerShare transactionCharge developerPercentage
      isValid := decide (0 ≤ finalDeveloperShare transactionCharge developerPercentage ∧
        0 ≤ finalOwnerShare transactionCharge developerPercentage) }

/-- JavaScript `str.replace(/\D/g, '')`: keep only the digit characters. -/
def stripNonDigits (s : String) : String := ⟨s.data.filter Char.isDigit⟩

/-- JavaScript `String.prototype.startsWith` on our ASCII digit strings. -/
def jsStartsWith (s p : String) : Bool := p.data.isPrefixOf s.data

/-- JavaScript `str.substring(n)` on our ASCII digit strings. -/
def jsSubstringFrom (s : String) (n : ℕ) : String := ⟨s.data.drop n⟩

/-- The branch chain inside `MpesaService.formatPhoneNumber` (mpesa-service.js
lines 252-259): leading 0 is replaced by 254, leading 7 or 1 gets 254
prepended, anything else not already starting with 254 is rejected. -/
def phoneStep (cleaned : String) : Option String :=
  if jsStartsWith cleaned "0" then some ("254" ++ jsSubstringFrom cleaned 1)
  else if jsStartsWith cleaned "7" || jsStartsWith cleaned "1" then some ("254" ++ cleaned)
  else if !jsStartsWith cleaned "254" then none
  else some cleaned

/-- The final length check of `formatPhoneNumber` (lines 261-266): the result
must be exactly 12 characters. -/
def phoneFinish : Option String → Option String
  | none => none
  | some c => if c.length = 12 then some c else none

/-- `MpesaService.formatPhoneNumber` (mpesa-service.js lines 246-267).  The
JavaScript guard `if (!phoneNumber) return null` is the empty-string test on
a string input; `null` becomes `none`. -/
def formatPhoneNumber (phoneNumber : String) : Option String :=
  if phoneNumber = "" then none
  else phoneFinish (phoneStep (stripNonDigits phoneNumber))

/-- `sanitize.cleanPhoneNumber` (validation.js lines 487-501): same digit
stripping and prefix handling, but no rejection branch and no length check —
an unrecognized form passes through stripped. -/
def cleanPhoneNumber (phone : String) : Option String :=
  if phone = "" then none
  else some (
    if jsStartsWith (stripNonDigits phone) "0" then
      "254" ++ jsSubstringFrom (stripNonDigits phone) 1
    else if jsStartsWith (stripNonDigits phone) "7" || jsStartsWith (stripNonDigits phone) "1" then
      "254" ++ stripNonDigits phone
    else stripNonDigits phone)

/-- The Joi phone pattern of validation.js, `^254[17]\d\x7b8\x7d$`:
"254", then 1 or 7, then 8 more digits. -/
def phonePatternOk (s : String) : Bool :=
  match s.data with
  | '2' :: '5' :: '4' :: c :: rest =>
      (c = '1' || c = '7') && rest.length = 8 && rest.all Char.isDigit
  | _ => false

/-- Decimal value of a digit string: JavaScript `parseInt` applied to a
nonempty all-digit string. -/
def natOfDigits (l : List Char) : ℕ := l.foldl (fun acc c => 10 * acc + (c.toNat - 48)) 0

/-- `sanitize.cleanAmount` (validation.js lines 509-515) on a string input:
`parseInt(amount.replace(/\D/g, ''))`.  `parseInt` of the empty string is
`NaN`, modelled as `none`. -/
def cleanAmount (amount : String) : Option ℕ :=
  if stripNonDigits amount = "" then none
  else some (natOfDigits (stripNonDigits amount).data)

/-- The Joi amount rule of validation.js: an integer between 50 and 100000.
Integrality is by construction in `ℕ`. -/
def validateAmount (amount : ℕ) : Bool := 50 ≤ amount && amount ≤ 100000

/-- The amount data-flow of `app.post('/api/payment/initiate')` (server2.js
lines 114-147): sanitize the raw amount, validate it, and compute the
transaction charge from the sanitized value.  The matatu-code and phone
checks of the endpoint do not touch the amount and are not modelled here. -/
def initiateAmountFlow (rawAmount : String) : Option (ℕ × ℤ) :=
  match cleanAmount rawAmount with
  | none => none
  | some a => if validateAmount a then some (a, calculateTransactionCharge a) else none

/-- Transaction lifecycle states stored in the `transactions` table. -/
inductive TxStatus
  | PENDING
  | COMPLETED
  | FAILED
  deriving DecidableEq

/-- One row of the `transactions` table, restricted to the columns the
reconciliation paths read or write (the callback handler writes `status` and
`mpesa_receipt_number`; the poll path writes `status`; shares are written
only at initiation).  The remaining columns are never touched by the two
paths modelled here. -/
structure TransactionRow where
  transaction_id : String
  status : TxStatus
  checkout_request_id : Option String
  mpesa_receipt_number : Option String
  owner_share : ℤ
  developer_share : ℤ
  deriving DecidableEq

/-- One entry of `CallbackMetadata.Item` in the provider callback. -/
structure CallbackItem where
  Name : String
  Value : Option String
  deriving DecidableEq

/-- `Body.stkCallback` of the provider callback envelope; absent JSON fields
are `none`. -/
structure StkCallback where
  MerchantRequestID : Option String
  CheckoutRequestID : Option String
  ResultCode : Option ℤ
  ResultDesc : Option String
  CallbackMetadata : Option (List CallbackItem)
  deriving DecidableEq

/-- JavaScript truthiness of an optional string: `undefined`, `null` and the
empty string are falsy. -/
def truthyStr : Option String → Bool
  | none => false
  | some s => s != ""

/-- `MpesaService.validateCallback` (mpesa-service.js lines 219-241): the
envelope must be present, and each of the four required fields must be
truthy or literally 0 (so a present ResultCode of any value passes, a
missing one fails).  `none` at the top models a missing `Body` or
`Body.stkCallback`. -/
def validateCallback : Option StkCallback → Bool
  | none => false
  | some cb =>
      truthyStr cb.MerchantRequestID && truthyStr cb.CheckoutRequestID &&
        cb.ResultCode.isSome && truthyStr cb.ResultDesc

/-- The receipt `processCallback` (lines 181-214) extracts: only on success
(ResultCode 0) and only when metadata is present, the Value of the
`MpesaReceiptNumber` item. -/
def callbackReceipt (cb : StkCallback) : Option String :=
  if cb.ResultCode = some 0 then
    match cb.CallbackMetadata with
    | some items => (items.find? (fun i => i.Name == "MpesaReceiptNumber")).bind (fun i => i.Value)
    | none => none
  else none

/-- The three response shapes of `app.post('/api/mpesa/callback')`:
HTTP 400 with the validation error, HTTP 404 `Transaction not found`, and
the HTTP 200 `success: true` acknowledgment. -/
inductive CallbackResponse
  | badRequest
  | notFound
  | ok
  deriving DecidableEq

/-- `SELECT transaction_id FROM transactions WHERE checkout_request_id = ?`
with `db.get`: the first matching row. -/
def findByCheckout (store : List TransactionRow) (cid : String) : Option TransactionRow :=
  store.find? (fun t => decide (t.checkout_request_id = some cid))

/-- `app.post('/api/mpesa/callback')` (server2.js lines 314-368): validate,
process, look the transaction up by checkout id, and update status and
receipt by transaction id — the `UPDATE` has no condition on the current
status.  Database failures are not modelled. -/
def handleMpesaCallback (store : List TransactionRow) (payload : Option StkCallback) :
    List TransactionRow × CallbackResponse :=
  match payload with
  | none => (store, .badRequest)
  | some cb =>
    if validateCallback (some cb) then
      match findByCheckout store (cb.CheckoutRequestID.getD "") with
      | none => (store, .notFound)
      | some row =>
          (store.map (fun t =>
            if t.transaction_id = row.transaction_id then
              { t with
                status := if cb.ResultCode = some 0 then TxStatus.COMPLETED else TxStatus.FAILED
                mpesa_receipt_number := callbackReceipt cb }
            else t),
           .ok)
    else (store, .badRequest)

/-- The camelCase data object `stkPushQuery` returns on success; `resultCode`
is optional because the provider may answer without one (the status handler
checks `!== undefined`). -/
structure StkQueryData where
  merchantRequestId : Option String
  checkoutRequestId : Option String
  responseCode : Option String
  responseDescription : Option String
  resultCode : Option ℤ
  resultDesc : Option String
  deriving DecidableEq

/-- The two shapes a gateway-client call resolves to:
`{success: true, data}` or `{success: false, error, errorCode}`. -/
inductive StkResult (α : Type)
  | success (data : α)
  | failure (error : String) (errorCode : String)
  deriving DecidableEq

/-- The response shapes of `app.get('/api/payment/status/:transactionId')`:
HTTP 404, or HTTP 200 carrying the (possibly just-updated) row. -/
inductive StatusResponse
  | notFound
  | ok (t : TransactionRow)
  deriving DecidableEq

/-- `app.get('/api/payment/status/:transactionId')` (server2.js lines
230-309).  The third component records whether the gateway query was
issued.  `gatewayQueryResult` is what `mpesaService.stkPushQuery` would
resolve to if called.  Database failures are not modelled. -/
def getStatus (store : List TransactionRow) (transactionId : String)
    (gatewayQueryResult : StkResult StkQueryData) :
    List TransactionRow × StatusResponse × Bool :=
  match store.find? (fun t => decide (t.transaction_id = transactionId)) with
  | none => (store, .notFound, false)
  | some transaction =>
      if transaction.status = TxStatus.PENDING ∧ truthyStr transaction.checkout_request_id then
        match gatewayQueryResult with
        | .success d =>
            match d.resultCode with
            | some rc =>
                (store.map (fun t =>
                   if t.transaction_id = transactionId then
                     { t with status := if rc = 0 then TxStatus.COMPLETED else TxStatus.FAILED }
                   else t),
                 .ok { transaction with
                         status := if rc = 0 then TxStatus.COMPLETED else TxStatus.FAILED },
                 true)
            | none => (store, .ok transaction, true)
        | .failure _ _ => (store, .ok transaction, true)
      else (store, .ok transaction, false)

/-- The raw Daraja response body of a successful STK push call. -/
structure StkPushResponse where
  MerchantRequestID : String
  CheckoutRequestID : String
  ResponseCode : String
  ResponseDescription : String
  CustomerMessage : String
  deriving DecidableEq

/-- The camelCase data object `stkPush` returns on success. -/
structure StkPushData where
  merchantRequestId : String
  checkoutRequestId : String
  responseCode : String
  responseDescription : String
  customerMessage : String
  deriving DecidableEq

/-- The raw Daraja response body of a successful STK query call. -/
structure StkQueryResponse where
  MerchantRequestID : Option String
  CheckoutRequestID : Option String
  ResponseCode : Option String
  ResponseDescription : Option String
  ResultCode : Option ℤ
  ResultDesc : Option String
  deriving DecidableEq

/-- `error.response?.data` of a failed axios call: the provider's optional
message and code. -/
structure ProviderErrorBody where
  errorMessage : Option String
  errorCode : Option String
  deriving DecidableEq

/-- How one axios call can end: a resolved response, a rejection carrying a
provider body, or a rejection with no response (network failure). -/
inductive AxiosOutcome (α : Type)
  | ok (data : α)
  | errorWithResponse (body : ProviderErrorBody)
  | errorNoResponse
  deriving DecidableEq

/-- How `generateAccessToken` ends: a token, or the generic thrown `Error`
(which carries no `response` field). -/
inductive TokenOutcome
  | ok
  | failed
  deriving DecidableEq

/-- `MpesaService.stkPush` (mpesa-service.js lines 74-127): every rejection
along the way is caught and turned into the structured failure object, with
the provider's message and code when present and the generic
`STK Push request failed` / `UNKNOWN_ERROR` otherwise. -/
def stkPush (token : TokenOutcome) (call : AxiosOutcome StkPushResponse) :
    StkResult StkPushData :=
  match token with
  | .failed => .failure "STK Push request failed" "UNKNOWN_ERROR"
  | .ok =>
    match call with
    | .ok d => .success
        { merchantRequestId := d.MerchantRequestID
          checkoutRequestId := d.CheckoutRequestID
          responseCode := d.ResponseCode
          responseDescription := d.ResponseDescription
          customerMessage := d.CustomerMessage }
    | .errorWithResponse b =>
        .failure (b.errorMessage.getD "STK Push request failed")
          (b.errorCode.getD "UNKNOWN_ERROR")
    | .errorNoResponse => .failure "STK Push request failed" "UNKNOWN_ERROR"

/-- `MpesaService.stkPushQuery` (mpesa-service.js lines 132-176): same
boundary discipline with the `STK Push query failed` generic message. -/
def stkPushQuery (token : TokenOutcome) (call : AxiosOutcome StkQueryResponse) :
    StkResult StkQueryData :=
  match token with
  | .failed => .failure "STK Push query failed" "UNKNOWN_ERROR"
  | .ok =>
    match call with
    | .ok d => .success
        { merchantRequestId := d.MerchantRequestID
          checkoutRequestId := d.CheckoutRequestID
          responseCode := d.ResponseCode
          responseDescription := d.ResponseDescription
          resultCode := d.ResultCode
          resultDesc := d.ResultDesc }
    | .errorWithResponse b =>
        .failure (b.errorMessage.getD "STK Push query failed")
          (b.errorCode.getD "UNKNOWN_ERROR")
    | .errorNoResponse => .failure "STK Push query failed" "UNKNOWN_ERROR"

end Mobipay

namespace Mobipay

lemma jsRound_as_natDiv (x : ℚ) (n d : ℕ) (h : x + 1/2 = (n : ℚ) / (d : ℚ)) :
    jsRound x = ((n / d : ℕ) : ℤ) := by
  unfold jsRound
  rw [h]
  exact_mod_cast Rat.floor_natCast_div_natCast n d

lemma jsRound_nonneg {x : ℚ} (hx : 0 ≤ x) : 0 ≤ jsRound x := by
  unfold jsRound
  rw [Int.floor_nonneg]
  linarith

lemma jsRound_le_of_le {x : ℚ} {c : ℤ} (hx : x ≤ (c : ℚ)) : jsRound x ≤ c := by
  unfold jsRound
  rw [Int.floor_le_iff]
  linarith

/-- The charge function rewritten with natural-number division only.  This is
the bridge that makes concrete charges computable by `decide`. -/
lemma charge_natDiv (a : ℕ) : calculateTransactionCharge a =
    ((if a ≤ 500 then (3 * a + 100) / 200
      else if a ≤ 1000 then (3 * a + 125) / 250
      else if a ≤ 2000 then (a + 50) / 100
      else (2 * a + 125) / 250 : ℕ) : ℤ) := by
  unfold calculateTransactionCharge
  split_ifs with h1 h2 h3
  · exact jsRound_as_natDiv ((a : ℚ) * ((1.5 : ℚ) / 100)) (3 * a + 100) 200
      (by push_cast; norm_num; ring)
  · exact jsRound_as_natDiv ((a : ℚ) * ((1.2 : ℚ) / 100)) (3 * a + 125) 250
      (by push_cast; norm_num; ring)
  · exact jsRound_as_natDiv ((a : ℚ) * ((1 : ℚ) / 100)) (a + 50) 100
      (by push_cast; norm_num; ring)
  · exact jsRound_as_natDiv ((a : ℚ) * ((0.8 : ℚ) / 100)) (2 * a + 125) 250
      (by push_cast; norm_num; ring)

/-- Claim C3: for every positive fare amount the computed charge equals the
specification's tier formula (round-half-up of the tier percentage of the
amount), equals the closed natural-division form of that formula, and takes
the stated values 2, 12 and 24 at the fares 100, 1000 and 3000. -/
theorem calculateTransactionCharge_spec (a : ℕ) (_hpos : 0 < a) :
    calculateTransactionCharge a = computeServiceCharge a ∧
    calculateTransactionCharge a =
      ((if a ≤ 500 then (3 * a + 100) / 200
        else if a ≤ 1000 then (3 * a + 125) / 250
        else if a ≤ 2000 then (a + 50) / 100
        else (2 * a + 125) / 250 : ℕ) : ℤ) ∧
    calculateTransactionCharge 100 = 2 ∧
    calculateTransactionCharge 1000 = 12 ∧
    calculateTransactionCharge 3000 = 24 := by
  refine ⟨?_, charge_natDiv a, ?_, ?_, ?_⟩
  · unfold calculateTransactionCharge computeServiceCharge
    split_ifs <;> norm_num
  · rw [charge_natDiv 100]; decide
  · rw [charge_natDiv 1000]; decide
  · rw [charge_natDiv 3000]; decide

/-- Witness for C3 at the concrete fare 100. -/
theorem calculateTransactionCharge_spec_witness :
    calculateTransactionCharge 100 = computeServiceCharge 100 :=
  (calculateTransactionCharge_spec 100 (by decide)).1

lemma developerShareRaw_nonneg {c : ℤ} {p : ℚ} (hc : 0 ≤ c) (hp0 : 0 ≤ p) :
    0 ≤ developerShareRaw c p := by
  apply jsRound_nonneg
  have hcq : (0 : ℚ) ≤ (c : ℚ) := by exact_mod_cast hc
  positivity

lemma developerShareRaw_le {c : ℤ} {p : ℚ} (hc : 0 ≤ c) (hp1 : p ≤ 100) :
    developerShareRaw c p ≤ c := by
  apply jsRound_le_of_le
  have hcq : (0 : ℚ) ≤ (c : ℚ) := by exact_mod_cast hc
  have h1 : p / 100 ≤ 1 := by
    rw [div_le_one (by norm_num : (0 : ℚ) < 100)]
    exact hp1
  calc (c : ℚ) * (p / 100) ≤ (c : ℚ) * 1 := by nlinarith
  _ = (c : ℚ) := mul_one _

lemma calculateSplit_ok {c : ℤ} {p : ℚ} (hc : 1 ≤ c) (hp0 : 0 ≤ p) (hp1 : p ≤ 100) :
    calculateSplit c p = .ok
      { transactionCharge := c
        developerShare := finalDeveloperShare c p
        ownerShare := finalOwnerShare c p
        isValid := decide (0 ≤ finalDeveloperShare c p ∧ 0 ≤ finalOwnerShare c p) } := by
  unfold calculateSplit
  rw [if_neg (by omega), if_neg (by simp only [not_or, not_lt]; exact ⟨hp0, hp1⟩)]

/-- Claim C4: on every charge at least 1 and percentage in [0, 100] the split
succeeds, the two shares always sum to the charge, and both are nonnegative. -/
theorem calculateSplit_conservation (c : ℤ) (p : ℚ)
    (hc : 1 ≤ c) (hp0 : 0 ≤ p) (hp1 : p ≤ 100) :
    ∃ r : SplitResult, calculateSplit c p = .ok r ∧
      r.ownerShare + r.developerShare = c ∧ 0 ≤ r.ownerShare ∧ 0 ≤ r.developerShare := by
  refine ⟨_, calculateSplit_ok hc hp0 hp1, ?_, ?_, ?_⟩ <;>
    have h0 := developerShareRaw_nonneg (c := c) (p := p) (by omega) hp0 <;>
    have h1 := developerShareRaw_le (c := c) (p := p) (by omega) hp1 <;>
    simp only [finalOwnerShare, finalDeveloperShare, ownerShareRaw] <;>
    split_ifs with h <;> omega

/-- Witness for C4 at charge 2, percentage 10. -/
theorem calculateSplit_conservation_witness :
    ∃ r : SplitResult, calculateSplit 2 10 = .ok r ∧
      r.ownerShare + r.developerShare = 2 ∧ 0 ≤ r.ownerShare ∧ 0 ≤ r.developerShare :=
  calculateSplit_conservation 2 10 (by decide) (by decide) (by decide)

lemma calculateSplit_one_ten :
    calculateSplit 1 10 =
      .ok { transactionCharge := 1, developerShare := 0, ownerShare := 1, isValid := true } := by
  have hraw : developerShareRaw 1 10 = 0 := by
    unfold developerShareRaw
    have h := jsRound_as_natDiv (((1 : ℤ) : ℚ) * ((10 : ℚ) / 100)) 3 5 (by push_cast; norm_num)
    simpa using h
  rw [calculateSplit_ok (by decide) (by decide) (by decide)]
  simp [finalOwnerShare, finalDeveloperShare, ownerShareRaw, hraw]

/-- Claim C5: for every charge above 1 and percentage in [0, 100], whenever
the uncorrected owner share falls below 1 the developer share is decremented
by one and the owner share recomputed; the owner share is never below 1 when
the charge exceeds 1; and at the boundary `calculateSplit 1 10` gives owner
share 1 and developer share 0. -/
theorem calculateSplit_ownerMinimum (c : ℤ) (p : ℚ)
    (hc : 1 < c) (hp0 : 0 ≤ p) (hp1 : p ≤ 100) :
    ∃ r : SplitResult, calculateSplit c p = .ok r ∧
      (ownerShareRaw c p < 1 →
        r.developerShare = developerShareRaw c p - 1 ∧
        r.ownerShare = c - (developerShareRaw c p - 1)) ∧
      1 ≤ r.ownerShare ∧
      calculateSplit 1 10 =
        .ok { transactionCharge := 1, developerShare := 0, ownerShare := 1, isValid := true } := by
  refine ⟨_, calculateSplit_ok (by omega) hp0 hp1, ?_, ?_, calculateSplit_one_ten⟩
  · intro hlt
    constructor <;> simp only [finalOwnerShare, finalDeveloperShare] <;>
      rw [if_pos ⟨hlt, hc⟩]
  · have h0 := developerShareRaw_nonneg (c := c) (p := p) (by omega) hp0
    have h1 := developerShareRaw_le (c := c) (p := p) (by omega) hp1
    simp only [finalOwnerShare, finalDeveloperShare, ownerShareRaw]
    split_ifs with h
    · omega
    · simp only [ownerShareRaw, not_and, not_lt] at h
      have := h
      omega

/-- Witness for C5 at charge 5, percentage 100 (the correction fires:
the raw developer share equals the whole charge). -/
theorem calculateSplit_ownerMinimum_witness :
    ∃ r : SplitResult, calculateSplit 5 100 = .ok r ∧
      (ownerShareRaw 5 100 < 1 →
        r.developerShare = developerShareRaw 5 100 - 1 ∧
        r.ownerShare = 5 - (developerShareRaw 5 100 - 1)) ∧
      1 ≤ r.ownerShare ∧
      calculateSplit 1 10 =
        .ok { transactionCharge := 1, developerShare := 0, ownerShare := 1, isValid := true } :=
  calculateSplit_ownerMinimum 5 100 (by decide) (by decide) (by decide)

/-- Counterexample to claim C6 as stated: at charge 0 and percentage 150 the
percentage is outside [0, 100], yet the raised error is the invalid-charge
one, not the invalid-percentage one — the two "if and only if" clauses of the
claim cannot both hold on this input. -/
theorem calculateSplit_percentIff_cex :
    (100 : ℚ) < 150 ∧
      calculateSplit 0 150 = .error .invalidCharge ∧
      calculateSplit 0 150 ≠ .error .invalidPercentage := by
  refine ⟨by norm_num, by rfl, ?_⟩
  rw [show calculateSplit 0 150 = Except.error SplitError.invalidCharge from rfl]
  intro h
  injection h with h
  cases h

/-- Claim C6 amended: the invalid-charge error is raised exactly when the
charge is below 1; the invalid-percentage error exactly when the charge
precondition holds but the percentage is outside [0, 100] (the charge check
takes precedence); and the split returns normally exactly when both
preconditions hold. -/
theorem calculateSplit_errorConditions (c : ℤ) (p : ℚ) :
    (calculateSplit c p = .error .invalidCharge ↔ c < 1) ∧
    (calculateSplit c p = .error .invalidPercentage ↔ 1 ≤ c ∧ (p < 0 ∨ 100 < p)) ∧
    ((∃ r, calculateSplit c p = .ok r) ↔ 1 ≤ c ∧ 0 ≤ p ∧ p ≤ 100) := by
  unfold calculateSplit
  split_ifs with h1 h2
  · refine ⟨by simp [h1], ?_, ?_⟩
    · simp only [Except.error.injEq]
      constructor
      · intro h; cases h
      · intro h; omega
    · constructor
      · rintro ⟨r, h⟩; cases h
      · intro h; omega
  · refine ⟨?_, ?_, ?_⟩
    · simp only [Except.error.injEq]
      constructor
      · intro h; cases h
      · intro h; omega
    · simp only [Except.error.injEq, true_iff]
      exact ⟨by omega, h2⟩
    · constructor
      · rintro ⟨r, h⟩; cases h
      · rintro ⟨-, h3, h4⟩
        rcases h2 with h2 | h2 <;> [exact absurd h3 (by simpa using h2); exact absurd h4 (by simpa using h2)]
  · refine ⟨?_, ?_, ?_⟩
    · constructor
      · intro h; cases h
      · intro h; omega
    · constructor
      · intro h; cases h
      · rintro ⟨-, h3⟩; exact absurd h3 h2
    · simp only [not_or, not_lt] at h2
      constructor
      · intro _
        exact ⟨by omega, h2.1, h2.2⟩
      · intro _
        exact ⟨_, rfl⟩

lemma stripNonDigits_allDigits (s : String) :
    (stripNonDigits s).data.all Char.isDigit = true := by
  show (s.data.filter Char.isDigit).all Char.isDigit = true
  rw [List.all_eq_true]
  intro c hc
  exact List.of_mem_filter hc

lemma allDigits_drop {l : List Char} (h : l.all Char.isDigit = true) (n : ℕ) :
    (l.drop n).all Char.isDigit = true := by
  rw [List.all_eq_true] at h ⊢
  intro x hx
  exact h x (List.drop_subset n l hx)

lemma allDigits_append254 {t : String} (h : t.data.all Char.isDigit = true) :
    ("254" ++ t).data.all Char.isDigit = true := by
  show ('2' :: '5' :: '4' :: t.data).all Char.isDigit = true
  rw [List.all_eq_true] at h ⊢
  intro x hx
  simp only [List.mem_cons] at hx
  rcases hx with rfl | rfl | rfl | hx
  · decide
  · decide
  · decide
  · exact h x hx

lemma bool_eq_false {b : Bool} (h : ¬ b = true) : b = false := by
  cases b
  · rfl
  · exact absurd rfl h

lemma bool_not_not {b : Bool} (h : ¬ ((!b) = true)) : b = true := by
  cases b
  · exact absurd rfl h
  · rfl

/-- Claim C8: every accepted phone number is exactly 12 digit characters and
arises by one of the three stated prefix transformations of the stripped
input (replace a leading 0 by 254, prepend 254 to a leading 7 or 1, pass an
already-254-prefixed number through); and the four concrete examples,
including that `999` also fails the server2 pipeline (`cleanPhoneNumber`
followed by the Joi phone pattern). -/
theorem formatPhoneNumber_spec (s r : String) (h : formatPhoneNumber s = some r) :
    (r.length = 12 ∧ r.data.all Char.isDigit = true ∧
      ((jsStartsWith (stripNonDigits s) "0" = true ∧
          r = "254" ++ jsSubstringFrom (stripNonDigits s) 1) ∨
        (jsStartsWith (stripNonDigits s) "0" = false ∧
          (jsStartsWith (stripNonDigits s) "7" = true ∨
            jsStartsWith (stripNonDigits s) "1" = true) ∧
          r = "254" ++ stripNonDigits s) ∨
        (jsStartsWith (stripNonDigits s) "0" = false ∧
          jsStartsWith (stripNonDigits s) "7" = false ∧
          jsStartsWith (stripNonDigits s) "1" = false ∧
          jsStartsWith (stripNonDigits s) "254" = true ∧
          r = stripNonDigits s))) ∧
    formatPhoneNumber "0712345678" = some "254712345678" ∧
    formatPhoneNumber "712345678" = some "254712345678" ∧
    formatPhoneNumber "254712345678" = some "254712345678" ∧
    formatPhoneNumber "999" = none ∧
    cleanPhoneNumber "999" = some "999" ∧
    phonePatternOk "999" = false := by
  refine ⟨?_, by decide, by decide, by decide, by decide, by decide, by decide⟩
  unfold formatPhoneNumber at h
  split at h
  · cases h
  · cases hs : phoneStep (stripNonDigits s) with
    | none => rw [hs] at h; cases h
    | some c' =>
        rw [hs] at h
        rw [show phoneFinish (some c') = if c'.length = 12 then some c' else none from rfl] at h
        split at h
        case isFalse => cases h
        case isTrue hlen =>
        have hr : c' = r := by injection h
        subst hr
        unfold phoneStep at hs
        split at hs
        case isTrue hb =>
          injection hs with hs
          subst hs
          exact ⟨hlen, allDigits_append254 (allDigits_drop (stripNonDigits_allDigits s) 1),
            Or.inl ⟨hb, rfl⟩⟩
        case isFalse hb =>
        split at hs
        case isTrue hb2 =>
          injection hs with hs
          subst hs
          rw [Bool.or_eq_true] at hb2
          exact ⟨hlen, allDigits_append254 (stripNonDigits_allDigits s),
            Or.inr (Or.inl ⟨bool_eq_false hb, hb2, rfl⟩)⟩
        case isFalse hb2 =>
        split at hs
        case isTrue hb3 => exact Option.noConfusion hs
        case isFalse hb3 =>
          injection hs with hs
          subst hs
          rw [Bool.or_eq_true] at hb2
          push_neg at hb2
          exact ⟨hlen, stripNonDigits_allDigits s,
            Or.inr (Or.inr ⟨bool_eq_false hb, bool_eq_false hb2.1, bool_eq_false hb2.2,
              bool_not_not hb3, rfl⟩)⟩

/-- Witness for C8 on the input `0712345678`. -/
theorem formatPhoneNumber_spec_witness :
    ("254712345678" : String).length = 12 ∧
      ("254712345678" : String).data.all Char.isDigit = true :=
  ⟨((formatPhoneNumber_spec "0712345678" "254712345678" (by decide)).1).1,
    ((formatPhoneNumber_spec "0712345678" "254712345678" (by decide)).1).2.1⟩

/-- Claim C10: `cleanAmount` on a string deletes the non-digit characters and
parses the concatenated digits in base 10; the decimal string `10.5` becomes
105 (neither a truncation, a rounding, nor a rejection), and the initiate
endpoint feeds the sanitized 105 into validation (which passes) and the
charge calculator (charge 2). -/
theorem cleanAmount_digitConcat (s : String) (h : stripNonDigits s ≠ "") :
    cleanAmount s = some (natOfDigits (s.data.filter Char.isDigit)) ∧
    cleanAmount "10.5" = some 105 ∧
    cleanAmount "10.5" ≠ some 10 ∧
    cleanAmount "10.5" ≠ some 11 ∧
    initiateAmountFlow "10.5" = some (105, 2) := by
  have h105 : calculateTransactionCharge 105 = 2 := by rw [charge_natDiv 105]; decide
  refine ⟨?_, by decide, by decide, by decide, ?_⟩
  · unfold cleanAmount
    rw [if_neg h]
    rfl
  · unfold initiateAmountFlow
    rw [show cleanAmount "10.5" = some 105 from by decide]
    show (if validateAmount 105 = true then some (105, calculateTransactionCharge 105)
      else none) = some (105, 2)
    rw [if_pos (show validateAmount 105 = true from by decide), h105]

/-- Witness for C10 on the input `10.5`. -/
theorem cleanAmount_digitConcat_witness :
    cleanAmount "10.5" = some (natOfDigits (("10.5" : String).data.filter Char.isDigit)) :=
  (cleanAmount_digitConcat "10.5" (by decide)).1

lemma getStatus_find_none {store : List TransactionRow} {id : String}
    {q : StkResult StkQueryData}
    (hf : store.find? (fun u => decide (u.transaction_id = id)) = none) :
    getStatus store id q = (store, .notFound, false) := by
  unfold getStatus
  rw [hf]

lemma getStatus_guardFalse {store : List TransactionRow} {id : String}
    {q : StkResult StkQueryData} {t : TransactionRow}
    (hf : store.find? (fun u => decide (u.transaction_id = id)) = some t)
    (hcond : ¬ (t.status = TxStatus.PENDING ∧ truthyStr t.checkout_request_id = true)) :
    getStatus store id q = (store, .ok t, false) := by
  unfold getStatus
  rw [hf]
  dsimp only
  exact if_neg hcond

lemma getStatus_pending_result {store : List TransactionRow} {id : String}
    {q : StkResult StkQueryData} {t : TransactionRow} {d : StkQueryData} {rc : ℤ}
    (hf : store.find? (fun u => decide (u.transaction_id = id)) = some t)
    (hcond : t.status = TxStatus.PENDING ∧ truthyStr t.checkout_request_id = true)
    (hq : q = .success d) (hrc : d.resultCode = some rc) :
    getStatus store id q =
      (store.map (fun u =>
         if u.transaction_id = id then
           { u with status := if rc = 0 then TxStatus.COMPLETED else TxStatus.FAILED }
         else u),
       .ok { t with status := if rc = 0 then TxStatus.COMPLETED else TxStatus.FAILED },
       true) := by
  subst hq
  unfold getStatus
  rw [hf]
  dsimp only
  rw [if_pos hcond]
  rw [hrc]

lemma getStatus_pending_failure {store : List TransactionRow} {id : String}
    {t : TransactionRow} {e ec : String}
    (hf : store.find? (fun u => decide (u.transaction_id = id)) = some t)
    (hcond : t.status = TxStatus.PENDING ∧ truthyStr t.checkout_request_id = true) :
    getStatus store id (.failure e ec) = (store, .ok t, true) := by
  unfold getStatus
  rw [hf]
  dsimp only
  rw [if_pos hcond]

lemma getStatus_pending_noResultCode {store : List TransactionRow} {id : String}
    {t : TransactionRow} {d : StkQueryData}
    (hf : store.find? (fun u => decide (u.transaction_id = id)) = some t)
    (hcond : t.status = TxStatus.PENDING ∧ truthyStr t.checkout_request_id = true)
    (hrc : d.resultCode = none) :
    getStatus store id (.success d) = (store, .ok t, true) := by
  unfold getStatus
  rw [hf]
  dsimp only
  rw [if_pos hcond]
  rw [hrc]

/-- Claim C7: the status endpoint issues the gateway query exactly when the
looked-up transaction is PENDING with a recorded checkout id; on a query
that returns a result code, code 0 stores COMPLETED and any other code
stores FAILED (in the row and in the response); a non-PENDING transaction is
answered as stored, with no gateway call and no update. -/
theorem getStatus_pollReconciliation (store : List TransactionRow) (id : String)
    (q : StkResult StkQueryData) :
    ((getStatus store id q).2.2 = true ↔
      ∃ t, store.find? (fun u => decide (u.transaction_id = id)) = some t ∧
        t.status = TxStatus.PENDING ∧ truthyStr t.checkout_request_id = true) ∧
    (∀ t, store.find? (fun u => decide (u.transaction_id = id)) = some t →
      t.status ≠ TxStatus.PENDING → getStatus store id q = (store, .ok t, false)) ∧
    (∀ t d rc, store.find? (fun u => decide (u.transaction_id = id)) = some t →
      t.status = TxStatus.PENDING → truthyStr t.checkout_request_id = true →
      q = .success d → d.resultCode = some rc →
      getStatus store id q =
        (store.map (fun u =>
           if u.transaction_id = id then
             { u with status := if rc = 0 then TxStatus.COMPLETED else TxStatus.FAILED }
           else u),
         .ok { t with status := if rc = 0 then TxStatus.COMPLETED else TxStatus.FAILED },
         true)) := by
  refine ⟨⟨?_, ?_⟩, ?_, ?_⟩
  · intro htrue
    cases hf : store.find? (fun u => decide (u.transaction_id = id)) with
    | none =>
        rw [getStatus_find_none hf] at htrue
        cases htrue
    | some t =>
        by_cases hcond : t.status = TxStatus.PENDING ∧ truthyStr t.checkout_request_id = true
        · exact ⟨t, rfl, hcond.1, hcond.2⟩
        · rw [getStatus_guardFalse hf hcond] at htrue
          cases htrue
  · rintro ⟨t, hf, h1, h2⟩
    cases q with
    | failure e ec => rw [getStatus_pending_failure hf ⟨h1, h2⟩]
    | success d =>
        cases hrc : d.resultCode with
        | some rc => rw [getStatus_pending_result hf ⟨h1, h2⟩ rfl hrc]
        | none => rw [getStatus_pending_noResultCode hf ⟨h1, h2⟩ hrc]
  · intro t hf hst
    exact getStatus_guardFalse hf (fun hc => hst hc.1)
  · intro t d rc hf h1 h2 hq hrc
    exact getStatus_pending_result hf ⟨h1, h2⟩ hq hrc

/-- Witness for C7: a COMPLETED transaction is answered as stored with no
gateway call and no update. -/
theorem getStatus_pollReconciliation_witness :
    getStatus
        [{ transaction_id := "T1", status := TxStatus.COMPLETED,
           checkout_request_id := some "C1", mpesa_receipt_number := some "RCPT1",
           owner_share := 2, developer_share := 0 }] "T1" (StkResult.failure "e" "ec") =
      ([{ transaction_id := "T1", status := TxStatus.COMPLETED,
          checkout_request_id := some "C1", mpesa_receipt_number := some "RCPT1",
          owner_share := 2, developer_share := 0 }],
       StatusResponse.ok
         { transaction_id := "T1", status := TxStatus.COMPLETED,
           checkout_request_id := some "C1", mpesa_receipt_number := some "RCPT1",
           owner_share := 2, developer_share := 0 },
       false) :=
  (getStatus_pollReconciliation
      [{ transaction_id := "T1", status := TxStatus.COMPLETED,
         checkout_request_id := some "C1", mpesa_receipt_number := some "RCPT1",
         owner_share := 2, developer_share := 0 }] "T1" (StkResult.failure "e" "ec")).2.1
    { transaction_id := "T1", status := TxStatus.COMPLETED,
      checkout_request_id := some "C1", mpesa_receipt_number := some "RCPT1",
      owner_share := 2, developer_share := 0 } (by decide) (by decide)

lemma handleCallback_found {store : List TransactionRow} {cb : StkCallback}
    {row : TransactionRow}
    (hv : validateCallback (some cb) = true)
    (hf : findByCheckout store (cb.CheckoutRequestID.getD "") = some row) :
    handleMpesaCallback store (some cb) =
      (store.map (fun t =>
        if t.transaction_id = row.transaction_id then
          { t with
            status := if cb.ResultCode = some 0 then TxStatus.COMPLETED else TxStatus.FAILED
            mpesa_receipt_number := callbackReceipt cb }
        else t),
       .ok) := by
  unfold handleMpesaCallback
  dsimp only
  rw [if_pos hv, hf]

/-- Counterexample to claim C1 as stated: a structurally valid callback with
a failure result code, delivered against a transaction already COMPLETED,
re-updates the row — the stored status flips from the terminal COMPLETED to
FAILED and the stored receipt is erased — while the response still
acknowledges success.  The callback path is not a no-op on terminal rows. -/
theorem callback_terminal_cex :
    handleMpesaCallback
        [{ transaction_id := "T1", status := TxStatus.COMPLETED,
           checkout_request_id := some "C1", mpesa_receipt_number := some "RCPT1",
           owner_share := 2, developer_share := 0 }]
        (some { MerchantRequestID := some "M1", CheckoutRequestID := some "C1",
                ResultCode := some 1, ResultDesc := some "Insufficient Funds",
                CallbackMetadata := none }) =
      ([{ transaction_id := "T1", status := TxStatus.FAILED,
          checkout_request_id := some "C1", mpesa_receipt_number := none,
          owner_share := 2, developer_share := 0 }], CallbackResponse.ok) ∧
    ([{ transaction_id := "T1", status := TxStatus.FAILED,
        checkout_request_id := some "C1", mpesa_receipt_number := none,
        owner_share := 2, developer_share := 0 }] : List TransactionRow) ≠
      [{ transaction_id := "T1", status := TxStatus.COMPLETED,
         checkout_request_id := some "C1", mpesa_receipt_number := some "RCPT1",
         owner_share := 2, developer_share := 0 }] := by
  constructor
  · rfl
  · decide

/-- Claim C1 amended: the poll path touches the ledger only when the stored
status is PENDING (a non-PENDING row is left untouched), but the callback
handler updates the matched transaction unconditionally — it always stores
the status derived from the result code and overwrites the receipt,
whatever the current status, and responds with the success acknowledgment. -/
theorem reconciliation_guards (store : List TransactionRow) (id : String)
    (q : StkResult StkQueryData) (cb : StkCallback) (t : TransactionRow) :
    (store.find? (fun u => decide (u.transaction_id = id)) = some t →
      t.status ≠ TxStatus.PENDING → (getStatus store id q).1 = store) ∧
    (validateCallback (some cb) = true →
      findByCheckout store (cb.CheckoutRequestID.getD "") = some t →
      handleMpesaCallback store (some cb) =
        (store.map (fun u =>
          if u.transaction_id = t.transaction_id then
            { u with
              status := if cb.ResultCode = some 0 then TxStatus.COMPLETED else TxStatus.FAILED
              mpesa_receipt_number := callbackReceipt cb }
          else u),
         .ok)) := by
  constructor
  · intro hf hst
    rw [getStatus_guardFalse hf (fun hc => hst hc.1)]
  · intro hv hf
    exact handleCallback_found hv hf

/-- Witness for C1 (amended) on a COMPLETED row: the callback overwrite and
the success acknowledgment, applied concretely. -/
theorem reconciliation_guards_witness :
    handleMpesaCallback
        [{ transaction_id := "T1", status := TxStatus.COMPLETED,
           checkout_request_id := some "C1", mpesa_receipt_number := some "RCPT1",
           owner_share := 2, developer_share := 0 }]
        (some { MerchantRequestID := some "M1", CheckoutRequestID := some "C1",
                ResultCode := some 0, ResultDesc := some "Success",
                CallbackMetadata := none }) =
      ([{ transaction_id := "T1", status := TxStatus.COMPLETED,
          checkout_request_id := some "C1", mpesa_receipt_number := none,
          owner_share := 2, developer_share := 0 }], CallbackResponse.ok) := by
  have h := (reconciliation_guards
      [{ transaction_id := "T1", status := TxStatus.COMPLETED,
         checkout_request_id := some "C1", mpesa_receipt_number := some "RCPT1",
         owner_share := 2, developer_share := 0 }] "T1" (StkResult.failure "e" "ec")
      { MerchantRequestID := some "M1", CheckoutRequestID := some "C1",
        ResultCode := some 0, ResultDesc := some "Success", CallbackMetadata := none }
      { transaction_id := "T1", status := TxStatus.COMPLETED,
        checkout_request_id := some "C1", mpesa_receipt_number := some "RCPT1",
        owner_share := 2, developer_share := 0 }).2 (by decide) (by decide)
  exact h.trans (by decide)

/-- Counterexample to claim C2 as stated: a structurally valid callback whose
checkout id matches no stored transaction leaves the ledger unchanged but is
answered with the 404 `Transaction not found` error, which is not the
success acknowledgment the claim requires. -/
theorem callback_unknown_cex :
    validateCallback
        (some { MerchantRequestID := some "M1", CheckoutRequestID := some "C9",
                ResultCode := some 0, ResultDesc := some "Success",
                CallbackMetadata := none }) = true ∧
    handleMpesaCallback ([] : List TransactionRow)
        (some { MerchantRequestID := some "M1", CheckoutRequestID := some "C9",
                ResultCode := some 0, ResultDesc := some "Success",
                CallbackMetadata := none }) =
      ([], CallbackResponse.notFound) ∧
    CallbackResponse.notFound ≠ CallbackResponse.ok := by
  refine ⟨by decide, by rfl, by decide⟩

/-- Claim C2 amended: on a structurally valid callback whose checkout id is
unknown, the ledger is left unchanged and the event is discarded (and
logged), but the handler responds with the 404 `Transaction not found`
error rather than a success acknowledgment. -/
theorem callbackUnknown_notFound (store : List TransactionRow) (cb : StkCallback)
    (hv : validateCallback (some cb) = true)
    (hn : findByCheckout store (cb.CheckoutRequestID.getD "") = none) :
    handleMpesaCallback store (some cb) = (store, .notFound) := by
  unfold handleMpesaCallback
  dsimp only
  rw [if_pos hv, hn]

/-- Witness for C2 (amended) on the empty ledger. -/
theorem callbackUnknown_notFound_witness :
    handleMpesaCallback ([] : List TransactionRow)
        (some { MerchantRequestID := some "M1", CheckoutRequestID := some "C9",
                ResultCode := some 0, ResultDesc := some "Success",
                CallbackMetadata := none }) =
      ([], CallbackResponse.notFound) :=
  callbackUnknown_notFound []
    { MerchantRequestID := some "M1", CheckoutRequestID := some "C9",
      ResultCode := some 0, ResultDesc := some "Success", CallbackMetadata := none }
    (by decide) (by decide)

/-- Claim C9: both gateway-client operations always resolve to a structured
object — a success payload or a `success: false` failure carrying an error
message and an error code; a failure is produced exactly when the token
acquisition or the provider call did not succeed; a provider-supplied
message and code are passed through, and the generic
`STK Push request failed` / `STK Push query failed` with `UNKNOWN_ERROR`
are used when the provider gave none.  No exception escapes either
operation. -/
theorem gateway_structuredFailure
    (tk : TokenOutcome) (cp : AxiosOutcome StkPushResponse)
    (tq : TokenOutcome) (cq : AxiosOutcome StkQueryResponse) :
    ((∃ d, stkPush tk cp = .success d) ∨ (∃ m ec, stkPush tk cp = .failure m ec)) ∧
    ((∃ m ec, stkPush tk cp = .failure m ec) ↔
      ¬ (tk = TokenOutcome.ok ∧ ∃ d, cp = AxiosOutcome.ok d)) ∧
    (∀ b, stkPush TokenOutcome.ok (AxiosOutcome.errorWithResponse b) =
      .failure (b.errorMessage.getD "STK Push request failed")
        (b.errorCode.getD "UNKNOWN_ERROR")) ∧
    (stkPush TokenOutcome.failed cp = .failure "STK Push request failed" "UNKNOWN_ERROR") ∧
    ((∃ d, stkPushQuery tq cq = .success d) ∨ (∃ m ec, stkPushQuery tq cq = .failure m ec)) ∧
    ((∃ m ec, stkPushQuery tq cq = .failure m ec) ↔
      ¬ (tq = TokenOutcome.ok ∧ ∃ d, cq = AxiosOutcome.ok d)) ∧
    (∀ b, stkPushQuery TokenOutcome.ok (AxiosOutcome.errorWithResponse b) =
      .failure (b.errorMessage.getD "STK Push query failed")
        (b.errorCode.getD "UNKNOWN_ERROR")) ∧
    (stkPushQuery TokenOutcome.failed cq =
      .failure "STK Push query failed" "UNKNOWN_ERROR") := by
  refine ⟨?_, ⟨?_, ?_⟩, fun b => rfl, rfl, ?_, ⟨?_, ?_⟩, fun b => rfl, rfl⟩
  · cases tk with
    | failed => exact Or.inr ⟨_, _, rfl⟩
    | ok =>
        cases cp with
        | ok d => exact Or.inl ⟨_, rfl⟩
        | errorWithResponse b => exact Or.inr ⟨_, _, rfl⟩
        | errorNoResponse => exact Or.inr ⟨_, _, rfl⟩
  · rintro ⟨m, ec, hfail⟩ ⟨rfl, d, rfl⟩
    exact StkResult.noConfusion hfail
  · intro hn
    cases tk with
    | failed => exact ⟨_, _, rfl⟩
    | ok =>
        cases cp with
        | ok d => exact absurd ⟨rfl, d, rfl⟩ hn
        | errorWithResponse b => exact ⟨_, _, rfl⟩
        | errorNoResponse => exact ⟨_, _, rfl⟩
  · cases tq with
    | failed => exact Or.inr ⟨_, _, rfl⟩
    | ok =>
        cases cq with
        | ok d => exact Or.inl ⟨_, rfl⟩
        | errorWithResponse b => exact Or.inr ⟨_, _, rfl⟩
        | errorNoResponse => exact Or.inr ⟨_, _, rfl⟩
  · rintro ⟨m, ec, hfail⟩ ⟨rfl, d, rfl⟩
    exact StkResult.noConfusion hfail
  · intro hn
    cases tq with
    | failed => exact ⟨_, _, rfl⟩
    | ok =>
        cases cq with
        | ok d => exact absurd ⟨rfl, d, rfl⟩ hn
        | errorWithResponse b => exact ⟨_, _, rfl⟩
        | errorNoResponse => exact ⟨_, _, rfl⟩

/-- Witness for C9: a provider failure body is passed through verbatim. -/
theorem gateway_structuredFailure_witness :
    stkPush TokenOutcome.ok
        (AxiosOutcome.errorWithResponse
          { errorMessage := some "Invalid Access Token", errorCode := some "404.001.03" }) =
      StkResult.failure "Invalid Access Token" "404.001.03" := by
  have h := (gateway_structuredFailure TokenOutcome.ok
      (AxiosOutcome.errorWithResponse
        { errorMessage := some "Invalid Access Token", errorCode := some "404.001.03" })
      TokenOutcome.ok AxiosOutcome.errorNoResponse).2.2.1
    { errorMessage := some "Invalid Access Token", errorCode := some "404.001.03" }
  exact h

end Mobipay
